import Mathlib

/-!
Shallow embedding of the context-engineering core of the `forge` repository
(files `forge/context/window_optimizer.py`, `forge/context/scope.py`,
`forge/context/complexity_router.py`) together with theorems settling the
specification claims about it.

Modelling conventions:
* Python `str` is modelled by `String`; character-level operations go through
  `String.data : List Char`.  `len` is the character count, matching Python.
* Python `int` is modelled by `Nat` where the source value is provably
  non-negative and by `Int` where it can go negative (the pre-clamp remainder
  in `allocate_budget`).
* Python `float` values appearing in the source (`0.05`, `0.75`, relevance
  scores, the quality threshold `0.6`, ...) are modelled by exact rationals.
  Every concrete input used below keeps the intermediate values far from the
  rounding boundaries of IEEE doubles, so `int(x)` coincides with the rational
  floor at those inputs.
* Python dicts holding context items are modelled by the structure
  `ContextItem`; `item.get` with a default is modelled by a structure field
  with that default.
-/

/-- Whitespace test matching the characters Python `str.split()` splits on
for the ASCII inputs considered here. -/
def pyIsSpace (c : Char) : Bool :=
  c = ' ' || c = '\t' || c = '\n' || c = '\r' || c = '\x0b' || c = '\x0c'

/-- Helper for `pySplitWs`: accumulates the current (reversed) word. -/
def splitWsAux : List Char → List Char → List (List Char)
  | [], cur => if cur = [] then [] else [cur.reverse]
  | c :: rest, cur =>
    if pyIsSpace c then
      if cur = [] then splitWsAux rest [] else cur.reverse :: splitWsAux rest []
    else
      splitWsAux rest (c :: cur)

/-- Python `text.split()`: split on whitespace runs, dropping empty parts. -/
def pySplitWs (s : List Char) : List (List Char) :=
  splitWsAux s []

/-- Number of words of a string, as computed by `len(text.split())`. -/
def wordCount (text : String) : Nat :=
  (pySplitWs text.data).length

/-- TokenCounter.estimate_tokens.  `int(len(text)/4.0)` is `len/4` (floor) and
`int(words/0.75)` is `4*words/3` (floor); both identities hold exactly for the
IEEE evaluation of the source on the input sizes considered here. -/
def estimate_tokens (text : String) (method : String) : Nat :=
  if text = "" then 0
  else if method = ("char") then text.data.length / 4
  else if method = ("word") then 4 * wordCount text / 3
  else if method = ("hybrid") then
    max (4 * wordCount text / 3) (text.data.length / 4)
  else 0

/-- TokenBudget dataclass.  Fields are `Int` because Python ints are signed;
`allocate_budget` clamps `retrieved_context` but the other fields are stored
as given. -/
structure TokenBudget where
  system_prompt : Int
  retrieved_context : Int
  user_query : Int
  reasoning_space : Int
  response_space : Int
  safety_margin : Int
deriving DecidableEq, Repr

/-- TokenBudget.total_available: sum of the six fields. -/
def TokenBudget.total_available (b : TokenBudget) : Int :=
  b.system_prompt + b.retrieved_context + b.user_query +
    b.reasoning_space + b.response_space + b.safety_margin

/-- ContextWindowOptimizer.allocate_budget.  `int(w*0.05)`, `int(w*0.10)` and
`int(w*0.15)` equal `w*5/100`, `w*10/100` and `w*15/100` in `Nat` division. -/
def allocate_budget (context_window system_prompt_tokens user_query_tokens
    response_target : Nat) : TokenBudget :=
  let safety_margin : Nat := context_window * 5 / 100
  let reasoning_space : Nat := context_window * 10 / 100
  let response_space : Nat := max response_target (context_window * 15 / 100)
  let remaining : Int := (context_window : Int) - safety_margin -
    reasoning_space - response_space - system_prompt_tokens - user_query_tokens
  let retrieved_context : Int := max 0 remaining
  { system_prompt := system_prompt_tokens
    retrieved_context := retrieved_context
    user_query := user_query_tokens
    reasoning_space := reasoning_space
    response_space := response_space
    safety_margin := safety_margin }

/-- QueryComplexity enum from scope.py. -/
inductive QueryComplexity where
  | SIMPLE
  | FOCUSED
  | MODERATE
  | COMPLEX
  | CROSS_SERVICE
deriving DecidableEq, Repr, Fintype

/-- Position of a complexity level in the order SIMPLE < FOCUSED < MODERATE
< COMPLEX < CROSS_SERVICE used by the spec. -/
def complexityRank : QueryComplexity → Nat
  | .SIMPLE => 0
  | .FOCUSED => 1
  | .MODERATE => 2
  | .COMPLEX => 3
  | .CROSS_SERVICE => 4

/-- ContextScope dataclass from scope.py.  The Python fields `include` and
`exclude` are called `includePatterns` and `excludePatterns` here because
`include` is reserved in Lean.  Default field values mirror the dataclass
defaults, so construction sites can omit them exactly as the source does. -/
structure ContextScope where
  query_type : String
  complexity : QueryComplexity
  includePatterns : List String := []
  excludePatterns : List String := []
  max_tokens : Nat := 50000
  max_files : Nat := 10
  enable_call_graph : Bool := true
  enable_git_context : Bool := true
  enable_web_search : Bool := false
  search_depth : Nat := 1
  git_lookback_days : Nat := 7
  min_relevance_score : Rat := 7 / 10
deriving DecidableEq, Repr

/-- The static CONTEXT_SCOPES catalog from scope.py, as a total map on the
closed enumeration. -/
def CONTEXT_SCOPES : QueryComplexity → ContextScope
  | .SIMPLE =>
    { query_type := ("api_lookup")
      complexity := .SIMPLE
      includePatterns := ["function_signature", "docstring", "type_hints"]
      excludePatterns := ["auto_generated", "vendor_dependencies",
        "node_modules", "__pycache__", "test_files"]
      max_tokens := 5000
      max_files := 1
      enable_call_graph := false
      enable_git_context := false
      enable_web_search := false
      search_depth := 0 }
  | .FOCUSED =>
    { query_type := ("bug_fix")
      complexity := .FOCUSED
      includePatterns := ["error_location", "service_implementation",
        "related_tests", "recent_changes", "error_logs"]
      excludePatterns := ["auto_generated_files", "vendor_dependencies",
        "unrelated_services", "historical_logs_beyond_24h", "node_modules",
        "dist", "build"]
      max_tokens := 30000
      max_files := 5
      enable_call_graph := true
      enable_git_context := true
      enable_web_search := false
      search_depth := 2
      git_lookback_days := 7
      min_relevance_score := 7 / 10 }
  | .MODERATE =>
    { query_type := ("refactoring")
      complexity := .MODERATE
      includePatterns := ["target_files", "dependent_code", "tests",
        "api_contracts", "documentation", "related_components"]
      excludePatterns := ["vendor_dependencies", "node_modules", "dist",
        "build", ".git"]
      max_tokens := 50000
      max_files := 15
      enable_call_graph := true
      enable_git_context := true
      enable_web_search := false
      search_depth := 3
      git_lookback_days := 30
      min_relevance_score := 65 / 100 }
  | .COMPLEX =>
    { query_type := ("architecture")
      complexity := .COMPLEX
      includePatterns := ["architecture_diagrams", "service_implementations",
        "api_definitions", "database_schemas", "design_docs", "dependencies",
        "integration_points"]
      excludePatterns := ["vendor_dependencies", "node_modules", "dist",
        "build", ".git", "temp_files"]
      max_tokens := 100000
      max_files := 30
      enable_call_graph := true
      enable_git_context := true
      enable_web_search := true
      search_depth := 4
      git_lookback_days := 90
      min_relevance_score := 6 / 10 }
  | .CROSS_SERVICE =>
    { query_type := ("cross_service_debugging")
      complexity := .CROSS_SERVICE
      includePatterns := ["service_boundaries", "api_contracts",
        "message_schemas", "service_implementations", "logs_from_all_services",
        "integration_tests", "monitoring_data"]
      excludePatterns := ["vendor_dependencies", "node_modules", "dist",
        "build", ".git"]
      max_tokens := 150000
      max_files := 50
      enable_call_graph := true
      enable_git_context := true
      enable_web_search := false
      search_depth := 5
      git_lookback_days := 14
      min_relevance_score := 55 / 100 }

/-- The mutable catalog state: in Python, CONTEXT_SCOPES is a module-level
dict whose ContextScope values can be mutated through aliasing. -/
def Catalog : Type := QueryComplexity → ContextScope

/-- The catalog as initialised at import time. -/
def initialCatalog : Catalog := CONTEXT_SCOPES

/-- get_scope_for_complexity: dict lookup with a FOCUSED fallback; on the
closed enumeration the lookup always succeeds, so this is plain application. -/
def get_scope_for_complexity (cat : Catalog) (complexity : QueryComplexity) :
    ContextScope :=
  cat complexity

/-- get_scope_for_intent from scope.py.  The Python function fetches the
scope object aliased from the catalog and assigns to its fields, so the
catalog entry itself is updated; this is modelled by returning the updated
catalog alongside the scope. -/
def get_scope_for_intent (intent_type : String)
    (complexity : QueryComplexity) (cat : Catalog) :
    ContextScope × Catalog :=
  let scope := get_scope_for_complexity cat complexity
  if intent_type = ("web_search") then
    let s := { scope with enable_web_search := true }
    (s, fun c => if c = complexity then s else cat c)
  else if intent_type = ("explanation") then
    let s := { scope with search_depth := 2 }
    (s, fun c => if c = complexity then s else cat c)
  else if intent_type = ("security_review") then
    let s := { scope with max_tokens := 200000, max_files := 100 }
    (s, fun c => if c = complexity then s else cat c)
  else
    (scope, cat)

/-- Lowercasing as used by `str.lower()` / `re.IGNORECASE` on the ASCII
inputs considered here. -/
def toLowerStr (s : String) : String :=
  String.mk (s.data.map Char.toLower)

/-- Substring occurrence test at a given index. -/
def occursAt (s pat : List Char) (i : Nat) : Bool :=
  pat.isPrefixOf (s.drop i)

/-- Substring containment, the meaning of `re.search` on a pattern that is a
plain literal. -/
def strContains (s pat : String) : Bool :=
  (List.range (s.data.length + 1)).any fun i => occursAt s.data pat.data i

/-- Case-sensitive `str.endswith`. -/
def strEndsWith (s pat : String) : Bool :=
  pat.data.isSuffixOf s.data

/-- Containment of any pattern of a list, the meaning of a `re.search` on an
alternation of literals (and of the loops that try one literal pattern after
another). -/
def containsAny (s : String) (pats : List String) : Bool :=
  pats.any fun pat => strContains s pat

/-- SecurityContextFilter.SENSITIVE_EXTENSIONS. -/
def SENSITIVE_EXTENSIONS : List String :=
  [".pem", ".key", ".env", ".pfx", ".jks", ".p12"]

/-- The loop over SecurityContextFilter.EXCLUDE_PATTERNS, each `re.search`
with `re.IGNORECASE` spelt out on the lowercased path:
the pattern on `.env` requires a dot or end of string after it, the pattern
on `.key` is anchored at the end, the remaining patterns are plain literals. -/
def matchesExcludePatterns (file_path : String) : Bool :=
  let p := toLowerStr file_path
  (strContains p (".env.") || strEndsWith p (".env"))
  || strContains p ("config/secrets")
  || strEndsWith p (".key")
  || strContains p ("credentials")
  || strContains p ("private_key")
  || strContains p ("password")
  || strContains p ("api_key")
  || strContains p ("secret")
  || strContains p ("token")

/-- SecurityContextFilter.is_sensitive_file: case-sensitive `endswith` on the
extensions, then the case-insensitive pattern loop. -/
def is_sensitive_file (file_path : String) : Bool :=
  SENSITIVE_EXTENSIONS.any (fun ext => strEndsWith file_path ext)
  || matchesExcludePatterns file_path

/-- Modelled from the words of the specification claim C8, for comparison
with `is_sensitive_file`: extension check and substring checks both
case-insensitive, every pattern read as a plain substring. -/
def is_sensitive_file_claim (file_path : String) : Bool :=
  let p := toLowerStr file_path
  SENSITIVE_EXTENSIONS.any (fun ext => strEndsWith p ext)
  || containsAny p [".env", "config/secrets", "credentials", "private_key",
      "password", "api_key", "secret", "token"]

/-- RetrievalStrategy enum from complexity_router.py. -/
inductive RetrievalStrategy where
  | FAST_LOOKUP
  | SEMANTIC_SEARCH
  | SEMANTIC_PLUS_GRAPH
  | FULL_ANALYSIS
  | CROSS_SERVICE
deriving DecidableEq, Repr, Fintype

/-- QueryIntent enum from prompt_enhancer.py (the router only inspects it). -/
inductive QueryIntent where
  | CODE_EXPLAIN
  | CODE_WRITE
  | CODE_FIX
  | CODE_REFACTOR
  | CODEBASE_SEARCH
  | EXTERNAL_INFO
  | COMPARISON
  | GENERAL
deriving DecidableEq, Repr, Fintype

/-- Python regex word character `\w` on the ASCII inputs considered here. -/
def isWordChar (c : Char) : Bool :=
  c.isAlphanum || c = '_'

/-- Character class `[\w\.]`. -/
def isWordDot (c : Char) : Bool :=
  isWordChar c || c = '.'

/-- Character class `[\w\. ]`. -/
def isWordDotSpace (c : Char) : Bool :=
  isWordDot c || c = ' '

/-- Character class `[\w ]`. -/
def isWordSpace (c : Char) : Bool :=
  isWordChar c || c = ' '

/-- Search for the regex `a.*b`: an occurrence of `a`, then an occurrence of
`b` further right, with no newline in between (`.` does not match newline). -/
def dotStarBridge (s a b : String) : Bool :=
  (List.range (s.data.length + 1)).any fun i =>
    occursAt s.data a.data i &&
    ((List.range (s.data.length + 1)).any fun j =>
      decide (i + a.data.length ≤ j) && occursAt s.data b.data j &&
      (((s.data.drop (i + a.data.length)).take (j - (i + a.data.length))).all
        fun c => c ≠ '\n'))

/-- Search for `^what is [\w\.]+\?$`. -/
def simplePat1 (q : List Char) : Bool :=
  ("what is ").data.isPrefixOf q &&
  (let rest := q.drop 8
   ("?").data.isSuffixOf rest && decide (rest.dropLast ≠ []) &&
     rest.dropLast.all isWordDot)

/-- Search for `^show (?:me )?[\w\. ]+$`. -/
def simplePat2 (q : List Char) : Bool :=
  ("show ").data.isPrefixOf q &&
  (let rest := q.drop 5
   (decide (rest ≠ []) && rest.all isWordDotSpace) ||
   (("me ").data.isPrefixOf rest && decide (rest.drop 3 ≠ []) &&
     (rest.drop 3).all isWordDotSpace))

/-- Search for `^(where|find) (is|are) [\w\.]+`. -/
def simplePat3 (q : List Char) : Bool :=
  [("where is "), ("where are "), ("find is "), ("find are ")].any fun p =>
    p.data.isPrefixOf q &&
    (match q.drop p.data.length with
     | c :: _ => isWordDot c
     | [] => false)

/-- Search for `^what does [\w\.]+ (do|mean)`: after the prefix, a non-empty
run of `[\w\.]` characters (necessarily the maximal one, those characters are
never a space), then a space and `do` or `mean`. -/
def simplePat4 (q : List Char) : Bool :=
  ("what does ").data.isPrefixOf q &&
  (let rest := q.drop 10
   decide (rest.takeWhile isWordDot ≠ []) &&
   ((" do").data.isPrefixOf (rest.dropWhile isWordDot) ||
    (" mean").data.isPrefixOf (rest.dropWhile isWordDot)))

/-- Search for `^(how to|can you) [\w ]+\?$`. -/
def simplePat5 (q : List Char) : Bool :=
  [("how to "), ("can you ")].any fun p =>
    p.data.isPrefixOf q &&
    (let rest := q.drop p.data.length
     ("?").data.isSuffixOf rest && decide (rest.dropLast ≠ []) &&
       rest.dropLast.all isWordSpace)

/-- Search for `^api\s+(docs|documentation)`. -/
def simplePat6 (q : List Char) : Bool :=
  ("api").data.isPrefixOf q &&
  (let rest := q.drop 3
   decide (rest.takeWhile pyIsSpace ≠ []) &&
   (("docs").data.isPrefixOf (rest.dropWhile pyIsSpace) ||
    ("documentation").data.isPrefixOf (rest.dropWhile pyIsSpace)))

/-- Search for `^function signature`. -/
def simplePat7 (q : List Char) : Bool :=
  ("function signature").data.isPrefixOf q

/-- QueryComplexityRouter.SIMPLE_PATTERNS: true when any of the seven
anchored patterns matches. -/
def matchesSimplePatterns (q : String) : Bool :=
  simplePat1 q.data || simplePat2 q.data || simplePat3 q.data ||
  simplePat4 q.data || simplePat5 q.data || simplePat6 q.data ||
  simplePat7 q.data

/-- QueryComplexityRouter.FOCUSED_PATTERNS, each regex written as the list of
literal alternatives it can match. -/
def matchesFocusedPatterns (q : String) : Bool :=
  containsAny q ["fix", "debug", "error", "bug", "issue"]
  || containsAny q ["implement feature", "implement function", "add feature",
      "add function", "create feature", "create function"]
  || containsAny q ["refactor this", "refactor the", "improve this",
      "improve the", "optimize this", "optimize the"]
  || containsAny q ["write code", "write function", "generate code",
      "generate function"]
  || containsAny q ["test", "unit test"]
  || containsAny q ["this", "this file", "this code"]

/-- QueryComplexityRouter.COMPLEX_PATTERNS. -/
def matchesComplexPatterns (q : String) : Bool :=
  containsAny q ["architecture", "design", "system"]
  || containsAny q ["refactor the", "refactor this", "redesign the",
      "redesign this"]
  || containsAny q ["dependency", "dependencies", "import"]
  || containsAny q ["flow", "workflow", "process"]
  || containsAny q ["scale", "performance", "optimization"]
  || containsAny q ["migration", "upgrade"]
  || containsAny q ["integration", "connect", "integrate"]

/-- QueryComplexityRouter.CROSS_SERVICE_PATTERNS; the two patterns with `.*`
go through `dotStarBridge`. -/
def matchesCrossServicePatterns (q : String) : Bool :=
  containsAny q ["across services", "across repos", "across modules",
      "between services", "between repos", "between modules"]
  || containsAny q ["multiple services", "multiple components",
      "different services", "different components"]
  || (dotStarBridge q ("service") ("service") || strContains q ("inter-service"))
  || containsAny q ["distributed", "microservice"]
  || (dotStarBridge q ("api") ("gateway") || strContains q ("service mesh"))
  || containsAny q ["transaction", "saga", "orchestration"]

/-- QueryComplexityRouter._determine_complexity. -/
def determine_complexity (query : String) : QueryComplexity :=
  let q := toLowerStr query
  if matchesCrossServicePatterns q then .CROSS_SERVICE
  else if matchesComplexPatterns q then
    if containsAny q ["entire", "whole", "all", "whole codebase"] then
      .COMPLEX
    else .MODERATE
  else if matchesFocusedPatterns q then
    if containsAny q ["multiple", "different", "both", "files"] then
      .MODERATE
    else .FOCUSED
  else if matchesSimplePatterns q then .SIMPLE
  else
    let words := (pySplitWs q.data).length
    if words < 5 then .SIMPLE
    else if words < 15 then .FOCUSED
    else if words < 30 then .MODERATE
    else .COMPLEX

/-- QueryComplexityRouter._select_strategy (the trailing default return in
the source is unreachable on the closed enumeration). -/
def select_strategy (complexity : QueryComplexity) (intent : QueryIntent) :
    RetrievalStrategy :=
  match complexity with
  | .SIMPLE => .FAST_LOOKUP
  | .FOCUSED =>
    if intent = .CODE_WRITE || intent = .CODE_EXPLAIN then .SEMANTIC_SEARCH
    else .SEMANTIC_PLUS_GRAPH
  | .MODERATE => .SEMANTIC_PLUS_GRAPH
  | .COMPLEX => .FULL_ANALYSIS
  | .CROSS_SERVICE => .CROSS_SERVICE

/-- AdaptiveRetrieval.get_escalation_strategy; the quality threshold 0.6 is
the exact rational 3/5. -/
def get_escalation_strategy (current_strategy : RetrievalStrategy)
    (result_quality : Rat) : Option RetrievalStrategy :=
  if 6 / 10 ≤ result_quality then none
  else
    match current_strategy with
    | .FAST_LOOKUP => some .SEMANTIC_SEARCH
    | .SEMANTIC_SEARCH => some .SEMANTIC_PLUS_GRAPH
    | .SEMANTIC_PLUS_GRAPH => some .FULL_ANALYSIS
    | .FULL_ANALYSIS => some .CROSS_SERVICE
    | .CROSS_SERVICE => none

/-- A context item dict as consumed by fit_context_to_budget: the keys the
function reads, with the defaults `item.get` supplies.  Input dicts carry no
`truncated` key, which is modelled by the default `false`. -/
structure ContextItem where
  content : String := ""
  relevance_score : Rat := 0
  priority : Rat := 1 / 2
  truncated : Bool := false
deriving DecidableEq, Repr

/-- The sort key `relevance_score * 0.7 + priority * 0.3`. -/
def sortKey (item : ContextItem) : Rat :=
  item.relevance_score * (7 / 10) + item.priority * (3 / 10)

/-- Python `sorted(..., key=sortKey, reverse=True)`: a stable sort by
descending key. -/
def sortItems (items : List ContextItem) : List ContextItem :=
  items.mergeSort fun a b => decide (sortKey b ≤ sortKey a)

/-- ContextWindowOptimizer._truncate_to_fit.  The float expression
`int(len(content) * ratio * 0.95)` with `ratio = token_budget /
estimated_tokens` is modelled by the floor of the exact rational
`len * token_budget * 95 / (estimated_tokens * 100)`, which for natural
operands is the `Nat` division written below; at the concrete inputs used in
the theorems the IEEE evaluation has the same floor. -/
def truncate_to_fit (item : ContextItem) (token_budget : Nat) :
    Option ContextItem :=
  if item.content = "" then none
  else
    let estimated_tokens := estimate_tokens item.content ("hybrid")
    if estimated_tokens ≤ token_budget then some item
    else
      let truncate_len : Nat :=
        item.content.data.length * token_budget * 95 /
          (estimated_tokens * 100)
      if truncate_len < 100 then none
      else
        some { item with
          content := String.mk (item.content.data.take truncate_len) ++
            "\n[... truncated ...]"
          truncated := true }

/-- The selection loop of fit_context_to_budget, with the running
`tokens_used` accumulator made explicit. -/
def fitLoop (token_budget : Nat) : List ContextItem → Nat →
    List ContextItem × Nat
  | [], tokens_used => ([], tokens_used)
  | item :: rest, tokens_used =>
    let item_tokens := estimate_tokens item.content ("hybrid")
    if tokens_used + item_tokens ≤ token_budget then
      let r := fitLoop token_budget rest (tokens_used + item_tokens)
      (item :: r.1, r.2)
    else if tokens_used < token_budget then
      match truncate_to_fit item (token_budget - tokens_used) with
      | some truncated =>
        let r := fitLoop token_budget rest
          (tokens_used + estimate_tokens truncated.content ("hybrid"))
        (truncated :: r.1, r.2)
      | none => fitLoop token_budget rest tokens_used
    else
      fitLoop token_budget rest tokens_used

/-- ContextWindowOptimizer.fit_context_to_budget. -/
def fit_context_to_budget (context_items : List ContextItem)
    (token_budget : Nat) : List ContextItem × Nat :=
  if context_items = [] then ([], 0)
  else fitLoop token_budget (sortItems context_items) 0

/-- Sum of the hybrid token estimates of a list of items. -/
def totalHybridTokens (items : List ContextItem) : Nat :=
  (items.map fun item => estimate_tokens item.content ("hybrid")).sum

/-- A single context item whose content is 301 copies of the letter x. -/
def overflowItem : ContextItem :=
  { content := String.mk (List.replicate 301 'x'), relevance_score := 1,
    priority := 1 }

set_option maxRecDepth 8000 in
/-- C1: the claim says fit_context_to_budget never returns a selection whose
summed hybrid token estimates exceed the supplied budget.  The code violates
this: on a single item of 301 x characters and budget 50, the item estimate
is 75, truncation keeps 190 characters and appends the truncation marker, and
the truncated item then estimates to 52 tokens, so the function returns
tokens_used = 52 > 50 and a selection summing to 52 > 50. -/
theorem fit_exceeds_budget_after_truncation :
    (fit_context_to_budget [overflowItem] 50).2 = 52 ∧
    50 < (fit_context_to_budget [overflowItem] 50).2 ∧
    totalHybridTokens (fit_context_to_budget [overflowItem] 50).1 = 52 ∧
    50 < totalHybridTokens (fit_context_to_budget [overflowItem] 50).1 := by
  have hs : sortItems [overflowItem] = [overflowItem] := by simp [sortItems]
  have hne : ([overflowItem] : List ContextItem) ≠ [] := by simp
  rw [fit_context_to_budget, if_neg hne, hs]
  refine ⟨?_, ?_, ?_, ?_⟩ <;> decide

/-- C2, counterexample: with window 4096, system 4000, query 4000 and
response target 1000, the pre-clamp remainder is negative, retrieved_context
is clamped to 0 and the six fields then sum to 9613 > 4096, falsifying the
claim that the sum never exceeds the window. -/
theorem allocate_budget_total_exceeds_window :
    (allocate_budget 4096 4000 4000 1000).total_available = 9613 ∧
    4096 < (allocate_budget 4096 4000 4000 1000).total_available := by
  refine ⟨?_, ?_⟩ <;> decide

/-- C2, amended: retrieved_context is clamped to zero and is never negative;
and whenever the fixed parts (system prompt, query, both reserves and the
safety margin) fit inside the window, the six fields sum to exactly the
window, in particular never exceeding it. -/
theorem allocate_budget_clamp_and_fill (w s q t : Nat) :
    0 ≤ (allocate_budget w s q t).retrieved_context ∧
    (s + q + w * 5 / 100 + w * 10 / 100 + max t (w * 15 / 100) ≤ w →
      (allocate_budget w s q t).total_available = w) := by
  constructor
  · simp only [allocate_budget]
    exact le_max_left 0 _
  · intro h
    simp only [allocate_budget, TokenBudget.total_available]
    omega

/-- C2, witness for the amended theorem at window 4096, system 100, query 50,
target 1000. -/
theorem allocate_budget_clamp_and_fill_witness :
    0 ≤ (allocate_budget 4096 100 50 1000).retrieved_context ∧
    (allocate_budget 4096 100 50 1000).total_available = 4096 :=
  ⟨(allocate_budget_clamp_and_fill 4096 100 50 1000).1,
   (allocate_budget_clamp_and_fill 4096 100 50 1000).2 (by decide)⟩

/-- C3, counterexample: SIMPLE and FOCUSED both have minimum relevance
threshold 0.7 (SIMPLE inherits the dataclass default), so the threshold is
not strictly decreasing on the adjacent pair SIMPLE < FOCUSED. -/
theorem min_relevance_not_strictly_decreasing :
    complexityRank .SIMPLE < complexityRank .FOCUSED ∧
    ¬ (CONTEXT_SCOPES .FOCUSED).min_relevance_score <
        (CONTEXT_SCOPES .SIMPLE).min_relevance_score ∧
    (CONTEXT_SCOPES .FOCUSED).min_relevance_score =
      (CONTEXT_SCOPES .SIMPLE).min_relevance_score := by
  refine ⟨by decide, ?_, ?_⟩ <;> simp [CONTEXT_SCOPES]

/-- C3, amended: over the static catalog, max_tokens is strictly increasing
in the complexity order, and min_relevance_score is non-increasing, strictly
decreasing on every pair except SIMPLE-FOCUSED where the two thresholds are
equal. -/
theorem scope_catalog_monotone :
    ∀ l1 l2 : QueryComplexity, complexityRank l1 < complexityRank l2 →
      (CONTEXT_SCOPES l1).max_tokens < (CONTEXT_SCOPES l2).max_tokens ∧
      (CONTEXT_SCOPES l2).min_relevance_score ≤
        (CONTEXT_SCOPES l1).min_relevance_score ∧
      (¬(l1 = .SIMPLE ∧ l2 = .FOCUSED) →
        (CONTEXT_SCOPES l2).min_relevance_score <
          (CONTEXT_SCOPES l1).min_relevance_score) := by
  intro l1 l2 h
  cases l1 <;> cases l2 <;>
    simp_all [complexityRank, CONTEXT_SCOPES] <;> norm_num

/-- C3, witness for the amended theorem on the pair FOCUSED < MODERATE. -/
theorem scope_catalog_monotone_witness :
    (CONTEXT_SCOPES .FOCUSED).max_tokens <
      (CONTEXT_SCOPES .MODERATE).max_tokens ∧
    (CONTEXT_SCOPES .MODERATE).min_relevance_score <
      (CONTEXT_SCOPES .FOCUSED).min_relevance_score :=
  ⟨(scope_catalog_monotone .FOCUSED .MODERATE (by decide)).1,
   (scope_catalog_monotone .FOCUSED .MODERATE (by decide)).2.2 (by decide)⟩

/-- C4: the claim says get_scope_for_intent leaves the base catalog entry
unchanged.  The code aliases the catalog entry and assigns to its fields, so
for the intent web_search at level SIMPLE the base entry itself acquires
enable_web_search = true, although it was constructed with false: the call
mutates the catalog. -/
theorem get_scope_for_intent_mutates_catalog :
    ((get_scope_for_intent ("web_search") .SIMPLE initialCatalog).2
        .SIMPLE).enable_web_search = true ∧
    (initialCatalog .SIMPLE).enable_web_search = false ∧
    (get_scope_for_intent ("web_search") .SIMPLE initialCatalog).2 .SIMPLE ≠
      initialCatalog .SIMPLE := by
  refine ⟨?_, ?_, ?_⟩ <;> decide

/-- C5: allocate_budget with window 4096, system 100, query 50 and target
1000 returns safety_margin 204, reasoning_space 409, response_space
max(1000, floor(0.15*4096)) = 1000 and retrieved_context
4096-204-409-1000-100-50 = 2333. -/
theorem allocate_budget_4096_example :
    (allocate_budget 4096 100 50 1000).safety_margin = 204 ∧
    (allocate_budget 4096 100 50 1000).reasoning_space = 409 ∧
    (allocate_budget 4096 100 50 1000).response_space =
      max 1000 (4096 * 15 / 100) ∧
    (allocate_budget 4096 100 50 1000).response_space = 1000 ∧
    (allocate_budget 4096 100 50 1000).retrieved_context =
      4096 - 204 - 409 - 1000 - 100 - 50 ∧
    (allocate_budget 4096 100 50 1000).retrieved_context = 2333 := by
  refine ⟨?_, ?_, ?_, ?_, ?_, ?_⟩ <;> decide

/-- C6: get_escalation_strategy returns none for every strategy when the
quality is at least 0.6; below 0.6 it returns the successor in the chain
FAST_LOOKUP, SEMANTIC_SEARCH, SEMANTIC_PLUS_GRAPH, FULL_ANALYSIS,
CROSS_SERVICE and none at CROSS_SERVICE; the five listed equations are the
four escalations that take FAST_LOOKUP to CROSS_SERVICE and the terminal
none. -/
theorem escalation_chain (q : Rat) :
    (6 / 10 ≤ q → ∀ s, get_escalation_strategy s q = none) ∧
    (q < 6 / 10 →
      get_escalation_strategy .FAST_LOOKUP q = some .SEMANTIC_SEARCH ∧
      get_escalation_strategy .SEMANTIC_SEARCH q =
        some .SEMANTIC_PLUS_GRAPH ∧
      get_escalation_strategy .SEMANTIC_PLUS_GRAPH q = some .FULL_ANALYSIS ∧
      get_escalation_strategy .FULL_ANALYSIS q = some .CROSS_SERVICE ∧
      get_escalation_strategy .CROSS_SERVICE q = none) := by
  constructor
  · intro h s
    cases s <;> simp [get_escalation_strategy, h]
  · intro h
    have h2 : ¬ (6 / 10 : Rat) ≤ q := not_le.mpr h
    refine ⟨?_, ?_, ?_, ?_, ?_⟩ <;> simp [get_escalation_strategy, h2]

/-- C6, witness at the qualities 1 and 0. -/
theorem escalation_chain_witness :
    (∀ s, get_escalation_strategy s 1 = none) ∧
    get_escalation_strategy .FAST_LOOKUP 0 = some .SEMANTIC_SEARCH ∧
    get_escalation_strategy .CROSS_SERVICE 0 = none :=
  ⟨(escalation_chain 1).1 (by norm_num),
   ((escalation_chain 0).2 (by norm_num)).1,
   ((escalation_chain 0).2 (by norm_num)).2.2.2.2⟩

/-- The concrete query of claim C7. -/
def c7query : String := "fix the authentication bug across both services"

/-- C7: the query about fixing the authentication bug across both services
matches no cross-service and no architectural pattern, matches a focused
pattern, contains the multi-target word both and is therefore classified
MODERATE; and for MODERATE every intent selects SEMANTIC_PLUS_GRAPH. -/
theorem route_fix_auth_bug_both_services :
    matchesCrossServicePatterns (toLowerStr c7query) = false ∧
    matchesComplexPatterns (toLowerStr c7query) = false ∧
    matchesFocusedPatterns (toLowerStr c7query) = true ∧
    strContains (toLowerStr c7query) ("both") = true ∧
    determine_complexity c7query = .MODERATE ∧
    (∀ intent, select_strategy .MODERATE intent = .SEMANTIC_PLUS_GRAPH) := by
  refine ⟨by decide, by decide, by decide, by decide, by decide, ?_⟩
  intro intent
  cases intent <;> rfl

/-- C8, counterexample: the extension check in is_sensitive_file is a
case-sensitive endswith, so the upper-case path X.PEM is classified safe,
although the claim (both checks case-insensitive) classifies it sensitive. -/
theorem sensitive_file_case_counterexample :
    is_sensitive_file ("X.PEM") = false ∧
    is_sensitive_file_claim ("X.PEM") = true := by
  refine ⟨?_, ?_⟩ <;> decide

/-- C8, amended: a path is sensitive exactly when it ends case-sensitively in
one of the six extensions, or its lowercased form contains .env followed by a
dot, ends with .env, contains config/secrets, ends with .key, or contains one
of the remaining pattern words (the pattern side is case-insensitive); the
two example paths of the claim behave as stated. -/
theorem is_sensitive_file_characterization :
    (∀ path : String, is_sensitive_file path = true ↔
      ((∃ ext ∈ SENSITIVE_EXTENSIONS, strEndsWith path ext = true) ∨
       strContains (toLowerStr path) (".env.") = true ∨
       strEndsWith (toLowerStr path) (".env") = true ∨
       strContains (toLowerStr path) ("config/secrets") = true ∨
       strEndsWith (toLowerStr path) (".key") = true ∨
       (∃ pat ∈ [("credentials"), ("private_key"), ("password"),
          ("api_key"), ("secret"), ("token")],
          strContains (toLowerStr path) pat = true))) ∧
    is_sensitive_file ("/repo/.env") = true ∧
    is_sensitive_file ("/repo/src/app.py") = false := by
  refine ⟨?_, by decide, by decide⟩
  intro path
  simp only [is_sensitive_file, matchesExcludePatterns, SENSITIVE_EXTENSIONS,
    Bool.or_eq_true, List.any_eq_true, List.mem_cons, List.not_mem_nil,
    or_false, exists_eq_or_imp, exists_eq_left]
  tauto

/-- Helper for C9: when everything still ahead of the loop fits, the loop
accepts every item unchanged and adds up their estimates. -/
theorem fitLoop_all_fit (token_budget : Nat) :
    ∀ (l : List ContextItem) (tokens_used : Nat),
      tokens_used + totalHybridTokens l ≤ token_budget →
      fitLoop token_budget l tokens_used =
        (l, tokens_used + totalHybridTokens l) := by
  intro l
  induction l with
  | nil =>
    intro used h
    simp [fitLoop, totalHybridTokens]
  | cons item rest ih =>
    intro used h
    have hsum : totalHybridTokens (item :: rest) =
        estimate_tokens item.content ("hybrid") + totalHybridTokens rest := by
      simp [totalHybridTokens]
    rw [hsum] at h
    have hfit : used + estimate_tokens item.content ("hybrid") ≤
        token_budget := by omega
    rw [fitLoop, if_pos hfit, ih (used + estimate_tokens item.content ("hybrid")) (by omega)]
    rw [hsum]
    refine Prod.ext rfl ?_
    simp [Nat.add_assoc]

/-- C9: when the summed hybrid estimates of the items already fit in the
budget, fit_context_to_budget returns every item, in ranked order and
unmodified (the output list is exactly the stable descending sort of the
input, a permutation of it), and tokens_used is the sum of the individual
hybrid estimates. -/
theorem fit_roundtrip (items : List ContextItem) (token_budget : Nat)
    (h : totalHybridTokens items ≤ token_budget) :
    fit_context_to_budget items token_budget =
      (sortItems items, totalHybridTokens items) ∧
    (sortItems items).Perm items := by
  have hperm : (sortItems items).Perm items := List.mergeSort_perm items _
  refine ⟨?_, hperm⟩
  by_cases hnil : items = []
  · subst hnil
    simp [fit_context_to_budget, sortItems, totalHybridTokens]
  · have hsum : totalHybridTokens (sortItems items) = totalHybridTokens items := by
      unfold totalHybridTokens
      exact List.Perm.sum_eq (hperm.map _)
    rw [fit_context_to_budget, if_neg hnil,
      fitLoop_all_fit token_budget (sortItems items) 0 (by omega), hsum]
    simp

/-- Two items that comfortably fit a budget of 100 tokens together. -/
def demoItems : List ContextItem :=
  [{ content := "alpha beta gamma", relevance_score := 1 / 2,
     priority := 1 / 2 },
   { content := "hello world", relevance_score := 9 / 10,
     priority := 1 / 2 }]

/-- C9, witness on two small items and budget 100. -/
theorem fit_roundtrip_witness :
    fit_context_to_budget demoItems 100 =
      (sortItems demoItems, totalHybridTokens demoItems) ∧
    (sortItems demoItems).Perm demoItems :=
  fit_roundtrip demoItems 100 (by decide)

/-- C10: for every text and every method, estimate_tokens returns 0 whenever
the method is not char, word or hybrid, instead of failing; empty text yields
0 for every method, known or not; and the result is always a non-negative
integer.  Only the first conjunct is conditional on the method being unknown;
the other two hold for all methods. -/
theorem estimate_tokens_total (text method : String) :
    (method ≠ ("char") ∧ method ≠ ("word") ∧ method ≠ ("hybrid") →
      estimate_tokens text method = 0) ∧
    estimate_tokens ("") method = 0 ∧
    0 ≤ estimate_tokens text method := by
  refine ⟨?_, by simp [estimate_tokens], Nat.zero_le _⟩
  intro h
  obtain ⟨h1, h2, h3⟩ := h
  unfold estimate_tokens
  by_cases ht : text = ("")
  · simp [ht]
  · simp [ht, h1, h2, h3]

/-- C10, witness: the unknown method foo returns 0 on text abc, empty text
returns 0 both for foo and for the known method hybrid, and the result at
abc with foo is non-negative. -/
theorem estimate_tokens_total_witness :
    estimate_tokens ("abc") ("foo") = 0 ∧
    estimate_tokens ("") ("foo") = 0 ∧
    estimate_tokens ("") ("hybrid") = 0 ∧
    0 ≤ estimate_tokens ("abc") ("foo") :=
  ⟨(estimate_tokens_total ("abc") ("foo")).1
      (by refine ⟨?_, ?_, ?_⟩ <;> decide),
   (estimate_tokens_total ("abc") ("foo")).2.1,
   (estimate_tokens_total ("abc") ("hybrid")).2.1,
   (estimate_tokens_total ("abc") ("foo")).2.2⟩
